import Mathlib

/-!
Shallow embedding of the channel subscription lifecycle manager
(`SubscriptionManager` in `src/js/relayManager` area of the Moot repository).

The JavaScript class is single-threaded and cooperative; each public method is
modelled as a pure state-transition function
`ManagerState → ManagerState × List TEvent (× Except String Unit)` where the
event list records, in issuance order, every request the manager sends to its
collaborators (subscribe / unsubscribe / history fetch) and every observer
notification.  External collaborators (the transport controller, the channel
registry and the activity-handler callbacks) are an opaque `Collab` record of
functions, quantified over in the theorems.  Timestamps are naturals; `now` is
passed explicitly where the code calls `Date.now()`.  Timer handles
(`backgroundPoller`) and the stagger sleep are pure time passage with no state
effect and are not represented.
-/

namespace Moot

/-- One entry of a fetched history page; only the timestamp is inspected. -/
structure Msg where
  timestamp : Nat
deriving DecidableEq, Repr

/-- A channel as held by the channel registry (`channelManager`). -/
structure Channel where
  streamId : String
  messages : List Msg
  password : Option String
deriving DecidableEq, Repr

/-- Per-channel activity record: `{ lastMessageTime, unreadCount, lastChecked }`. -/
structure ChannelActivity where
  lastMessageTime : Nat
  unreadCount : Nat
  lastChecked : Nat
deriving DecidableEq, Repr

/-- The `this.config` object of the manager. -/
structure Config where
  POLL_INTERVAL : Nat
  POLL_BATCH_SIZE : Nat
  POLL_STAGGER_DELAY : Nat
  MIN_POLL_INTERVAL : Nat
  MAX_CONCURRENT_SUBS : Nat
  ACTIVITY_CHECK_MESSAGES : Nat
deriving DecidableEq, Repr

/-- The constructor defaults of `this.config`. -/
def defaultConfig : Config :=
  { POLL_INTERVAL := 30000
    POLL_BATCH_SIZE := 3
    POLL_STAGGER_DELAY := 2000
    MIN_POLL_INTERVAL := 10000
    MAX_CONCURRENT_SUBS := 1
    ACTIVITY_CHECK_MESSAGES := 3 }

/-- Requests the manager issues to its collaborators, and observer
notifications, in issuance order. -/
inductive TEvent where
  | subscribe (streamId : String)
  | unsubscribe (streamId : String)
  | fetch (streamId : String)
  | notify (handlerId : Nat) (streamId : String) (activity : ChannelActivity)
deriving DecidableEq, Repr

/-- The opaque external collaborators: `streamrController` (fetch /
unsubscribe), `channelManager` (subscribe, registry), and the behaviour of the
registered activity handlers (`runHandler h` is what handler `h` does when
invoked; an `error` is a thrown exception). -/
structure Collab where
  fetchOlderHistory : String → Nat → Nat → Nat → Option String → Except String (List Msg)
  subscribeToChannel : String → Option String → Except String Unit
  unsubscribe : String → Except String Unit
  getChannel : String → Option Channel
  getAllChannels : List Channel
  runHandler : Nat → String → ChannelActivity → Except String Unit

/-- The mutable fields of the `SubscriptionManager` instance.  The
`channelActivity` `Map` is an association list keyed by stream id;
`activityHandlers` holds opaque handler identities; the timer handle is
omitted. -/
structure ManagerState where
  activeChannelId : Option String
  activeSubscriptionHandlers : Option Nat
  channelActivity : List (String × ChannelActivity)
  activityHandlers : List Nat
  config : Config
  pollIndex : Nat
  isPolling : Bool

/-- `Map.get`: first binding for the key, if any. -/
def lookupActivity : List (String × ChannelActivity) → String → Option ChannelActivity
  | [], _ => none
  | (k, v) :: rest, id => if k = id then some v else lookupActivity rest id

/-- `Map.set`: replace the first binding for the key, or append a new one. -/
def setActivity : List (String × ChannelActivity) → String → ChannelActivity →
    List (String × ChannelActivity)
  | [], id, a => [(id, a)]
  | (k, v) :: rest, id, a =>
      if k = id then (k, a) :: rest else (k, v) :: setActivity rest id a

/-- `notifyActivityHandlers(streamId, activity)`: invoke every registered
handler in order with `(streamId, activity)`; a handler exception is caught
and logged, so each handler is invoked exactly once regardless of the
others' outcomes.  Returns the notification events. -/
def notifyActivityHandlers (c : Collab) (s : ManagerState) (streamId : String)
    (activity : ChannelActivity) : List TEvent :=
  s.activityHandlers.map (fun h =>
    match c.runHandler h streamId activity with
    | Except.ok _ => TEvent.notify h streamId activity
    | Except.error _ => TEvent.notify h streamId activity)

/-- The single loop of `checkChannelActivity` over the fetched page: starting
from `(newCount, latestTime) = (0, lastMessageTime)`, count each message newer
than `lastMessageTime` and track the maximum timestamp among them. -/
def scanNewMessages (lastMessageTime : Nat) (messages : List Msg) : Nat × Nat :=
  messages.foldl
    (fun acc m =>
      if m.timestamp > lastMessageTime then
        (acc.1 + 1, if m.timestamp > acc.2 then m.timestamp else acc.2)
      else acc)
    (0, lastMessageTime)

/-- `checkChannelActivity(channel)`: fetch a small recent-history page, count
messages newer than the stored `lastMessageTime`, update the activity record,
and notify handlers when new messages were found.  On fetch failure only
`lastChecked` is updated and the error is rethrown to the caller. -/
def checkChannelActivity (c : Collab) (s : ManagerState) (channel : Channel)
    (now : Nat) : ManagerState × List TEvent × Except String Unit :=
  let streamId := channel.streamId
  let password := channel.password
  let currentActivity := (lookupActivity s.channelActivity streamId).getD
    { lastMessageTime := 0, unreadCount := 0, lastChecked := 0 }
  match c.fetchOlderHistory streamId 0 now s.config.ACTIVITY_CHECK_MESSAGES password with
  | Except.ok messages =>
      let scanned := scanNewMessages currentActivity.lastMessageTime messages
      let newActivity : ChannelActivity :=
        { lastMessageTime := scanned.2
          unreadCount := currentActivity.unreadCount + scanned.1
          lastChecked := now }
      let s1 := { s with channelActivity := setActivity s.channelActivity streamId newActivity }
      if scanned.1 > 0 then
        (s1, TEvent.fetch streamId :: notifyActivityHandlers c s1 streamId newActivity,
          Except.ok ())
      else
        (s1, [TEvent.fetch streamId], Except.ok ())
  | Except.error e =>
      let touched := setActivity s.channelActivity streamId
        { currentActivity with lastChecked := now }
      let s1 := { s with channelActivity := touched }
      (s1, [TEvent.fetch streamId], Except.error e)

/-- `downgradeToBackground(streamId)`: snapshot the latest in-memory message
timestamp (when the registry has the channel with at least one message) into
the activity record with `unreadCount = 0` and `lastChecked = now`, then
request unsubscribe; an unsubscribe failure is caught and swallowed.
`latestMsg.timestamp || Date.now()` maps a zero timestamp to `now`. -/
def downgradeToBackground (c : Collab) (s : ManagerState) (streamId : String)
    (now : Nat) : ManagerState × List TEvent :=
  if streamId = "" then (s, [])
  else
    let s1 :=
      match c.getChannel streamId with
      | some channel =>
          match channel.messages.getLast? with
          | some latestMsg =>
              let snap := setActivity s.channelActivity streamId
                { lastMessageTime := if latestMsg.timestamp = 0 then now else latestMsg.timestamp,
                  unreadCount := 0,
                  lastChecked := now }
              { s with channelActivity := snap }
          | none => s
      | none => s
    let unsubResult := c.unsubscribe streamId
    match unsubResult with
    | Except.ok _ => (s1, [TEvent.unsubscribe streamId])
    | Except.error _ => (s1, [TEvent.unsubscribe streamId])

/-- `setActiveChannel(streamId, password, handlers)`: no-op on a falsy id or
when already active; otherwise downgrade the previous active channel, set the
active pointer, then request the full subscription, propagating its failure. -/
def setActiveChannel (c : Collab) (s : ManagerState) (streamId : String)
    (password : Option String) (handlers : Option Nat) (now : Nat) :
    ManagerState × List TEvent × Except String Unit :=
  if streamId = "" then (s, [], Except.ok ())
  else if s.activeChannelId = some streamId then (s, [], Except.ok ())
  else
    let step1 :=
      match s.activeChannelId with
      | some prev => downgradeToBackground c s prev now
      | none => (s, [])
    let s2 := { step1.1 with
      activeChannelId := some streamId,
      activeSubscriptionHandlers := handlers }
    match c.subscribeToChannel streamId password with
    | Except.ok _ => (s2, step1.2 ++ [TEvent.subscribe streamId], Except.ok ())
    | Except.error e => (s2, step1.2 ++ [TEvent.subscribe streamId], Except.error e)

/-- `clearActiveChannel()`: downgrade the active channel, if any, and clear
the pointer. -/
def clearActiveChannel (c : Collab) (s : ManagerState) (now : Nat) :
    ManagerState × List TEvent :=
  match s.activeChannelId with
  | some id =>
      let step := downgradeToBackground c s id now
      ({ step.1 with activeChannelId := none, activeSubscriptionHandlers := none }, step.2)
  | none => (s, [])

/-- The background-channel set of a poll cycle: all registry channels whose
stream id differs from the active pointer. -/
def backgroundChannelsOf (c : Collab) (s : ManagerState) : List Channel :=
  c.getAllChannels.filter (fun ch => decide (s.activeChannelId ≠ some ch.streamId))

/-- A channel with empty fields, standing for JS `undefined` on an
out-of-range index (never reached: batch indices are reduced mod length). -/
def emptyChannel : Channel :=
  { streamId := "", messages := [], password := none }

/-- Batch selection of `pollBackgroundChannels`: `batchSize` channels starting
at the cursor, wrapping modulo the background-set length. -/
def selectBatch (backgroundChannels : List Channel) (pollIndex batchSize : Nat) :
    List Channel :=
  (List.range batchSize).map
    (fun i => backgroundChannels.getD ((pollIndex + i) % backgroundChannels.length) emptyChannel)

/-- Cursor advance of `pollBackgroundChannels`:
`pollIndex = (pollIndex + batchSize) % backgroundChannels.length`. -/
def advanceCursor (backgroundChannels : List Channel) (pollIndex batchSize : Nat) : Nat :=
  (pollIndex + batchSize) % backgroundChannels.length

/-- The per-batch loop of `pollBackgroundChannels`: for each channel in order,
skip it when inside the per-channel cool-down, otherwise run the activity
check, catching and dropping its error; then continue with the rest (the
stagger sleep is pure time passage). -/
def pollBatch (c : Collab) (s : ManagerState) (channelsToPoll : List Channel)
    (now : Nat) : ManagerState × List TEvent :=
  match channelsToPoll with
  | [] => (s, [])
  | channel :: rest =>
      let lastChecked :=
        ((lookupActivity s.channelActivity channel.streamId).map
          ChannelActivity.lastChecked).getD 0
      if now - lastChecked < s.config.MIN_POLL_INTERVAL then
        pollBatch c s rest now
      else
        let checked := checkChannelActivity c s channel now
        let cont := pollBatch c checked.1 rest now
        (cont.1, checked.2.1 ++ cont.2)

/-- `pollBackgroundChannels()`: skip when a cycle is in progress; otherwise
compute the background set, select the round-robin batch, advance the cursor,
check the batch, and release the in-progress guard (the `finally`). -/
def pollBackgroundChannels (c : Collab) (s : ManagerState) (now : Nat) :
    ManagerState × List TEvent :=
  if s.isPolling then (s, [])
  else
    let backgroundChannels := backgroundChannelsOf c s
    if backgroundChannels.isEmpty then ({ s with isPolling := false }, [])
    else
      let batchSize := min s.config.POLL_BATCH_SIZE backgroundChannels.length
      let channelsToPoll := selectBatch backgroundChannels s.pollIndex batchSize
      let s1 := { s with pollIndex := advanceCursor backgroundChannels s.pollIndex batchSize }
      let polled := pollBatch c s1 channelsToPoll now
      ({ polled.1 with isPolling := false }, polled.2)

/-- `forcePollChannel(streamId)`: immediate single-channel activity check,
skipped when the registry lacks the channel or it is the active channel; a
check failure is caught and swallowed. -/
def forcePollChannel (c : Collab) (s : ManagerState) (streamId : String)
    (now : Nat) : ManagerState × List TEvent :=
  match c.getChannel streamId with
  | none => (s, [])
  | some channel =>
      if s.activeChannelId = some streamId then (s, [])
      else
        let checked := checkChannelActivity c s channel now
        (checked.1, checked.2.1)

/-- Number of `subscribe` requests for a given stream id in a trace. -/
def countSubscribe (events : List TEvent) (streamId : String) : Nat :=
  (events.filter (fun e => decide (e = TEvent.subscribe streamId))).length

/-- Number of `unsubscribe` requests for a given stream id in a trace. -/
def countUnsubscribe (events : List TEvent) (streamId : String) : Nat :=
  (events.filter (fun e => decide (e = TEvent.unsubscribe streamId))).length

/-! ### Helper lemmas about the map, the scan and the collaborator calls -/

theorem lookupActivity_setActivity_self (m : List (String × ChannelActivity))
    (id : String) (a : ChannelActivity) :
    lookupActivity (setActivity m id a) id = some a := by
  induction m with
  | nil => simp [setActivity, lookupActivity]
  | cons kv rest ih =>
      obtain ⟨k, v⟩ := kv
      by_cases hk : k = id
      · simp [setActivity, lookupActivity, hk]
      · simp [setActivity, lookupActivity, hk, ih]

theorem lookupActivity_setActivity_other (m : List (String × ChannelActivity))
    (id id' : String) (a : ChannelActivity) (h : id' ≠ id) :
    lookupActivity (setActivity m id a) id' = lookupActivity m id' := by
  induction m with
  | nil => simp [setActivity, lookupActivity, Ne.symm h]
  | cons kv rest ih =>
      obtain ⟨k, v⟩ := kv
      by_cases hk : k = id
      · subst hk
        simp [setActivity, lookupActivity, Ne.symm h]
      · by_cases hk' : k = id'
        · simp [setActivity, lookupActivity, hk, hk', h]
        · simp [setActivity, lookupActivity, hk, hk', ih]

theorem notifyActivityHandlers_eq (c : Collab) (s : ManagerState) (streamId : String)
    (activity : ChannelActivity) :
    notifyActivityHandlers c s streamId activity =
      s.activityHandlers.map (fun h => TEvent.notify h streamId activity) := by
  unfold notifyActivityHandlers
  refine List.map_congr_left (fun h _ => ?_)
  cases c.runHandler h streamId activity <;> rfl

theorem scanNewMessages_foldl (t0 : Nat) (ms : List Msg) (k a : Nat) :
    ms.foldl
      (fun acc m =>
        if m.timestamp > t0 then
          (acc.1 + 1, if m.timestamp > acc.2 then m.timestamp else acc.2)
        else acc)
      (k, a) =
      (k + (ms.filter (fun m => t0 < m.timestamp)).length,
        ((ms.map Msg.timestamp).filter (fun t => t0 < t)).foldl max a) := by
  induction ms generalizing k a with
  | nil => simp
  | cons m rest ih =>
      by_cases hm : t0 < m.timestamp
      · have hmax : (if m.timestamp > a then m.timestamp else a) = max a m.timestamp := by
          split <;> omega
        simp only [List.foldl_cons, List.filter_cons, List.map_cons]
        rw [if_pos (by exact hm), ih]
        simp [hm, hmax, Nat.add_assoc, Nat.add_comm 1]
      · simp only [List.foldl_cons, List.filter_cons, List.map_cons]
        rw [if_neg (by exact hm), ih]
        simp [hm]

theorem scanNewMessages_eq (t0 : Nat) (ms : List Msg) :
    scanNewMessages t0 ms =
      ((ms.filter (fun m => t0 < m.timestamp)).length,
        ((ms.map Msg.timestamp).filter (fun t => t0 < t)).foldl max t0) := by
  unfold scanNewMessages
  rw [scanNewMessages_foldl]
  simp

theorem downgradeToBackground_events (c : Collab) (s : ManagerState)
    (streamId : String) (now : Nat) :
    (downgradeToBackground c s streamId now).2 =
      if streamId = "" then [] else [TEvent.unsubscribe streamId] := by
  unfold downgradeToBackground
  by_cases h : streamId = ""
  · simp [h]
  · simp only [h, if_neg, if_false]
    cases c.getChannel streamId with
    | none => cases c.unsubscribe streamId <;> rfl
    | some channel =>
        cases channel.messages.getLast? <;> cases c.unsubscribe streamId <;> rfl

theorem downgradeToBackground_frame (c : Collab) (s : ManagerState)
    (streamId : String) (now : Nat) :
    (downgradeToBackground c s streamId now).1.activeChannelId = s.activeChannelId ∧
    (downgradeToBackground c s streamId now).1.activeSubscriptionHandlers =
      s.activeSubscriptionHandlers ∧
    (downgradeToBackground c s streamId now).1.pollIndex = s.pollIndex ∧
    (downgradeToBackground c s streamId now).1.isPolling = s.isPolling ∧
    (downgradeToBackground c s streamId now).1.config = s.config ∧
    (downgradeToBackground c s streamId now).1.activityHandlers = s.activityHandlers := by
  unfold downgradeToBackground
  by_cases h : streamId = ""
  · simp [h]
  · rw [if_neg h]
    cases hg : c.getChannel streamId with
    | none => cases hu : c.unsubscribe streamId <;> simp [hu]
    | some channel =>
        cases hl : channel.messages.getLast? with
        | none => cases hu : c.unsubscribe streamId <;> simp [hl, hu]
        | some latestMsg => cases hu : c.unsubscribe streamId <;> simp [hl, hu]

theorem checkChannelActivity_frame (c : Collab) (s : ManagerState)
    (channel : Channel) (now : Nat) :
    (checkChannelActivity c s channel now).1.pollIndex = s.pollIndex ∧
    (checkChannelActivity c s channel now).1.isPolling = s.isPolling ∧
    (checkChannelActivity c s channel now).1.activeChannelId = s.activeChannelId ∧
    (checkChannelActivity c s channel now).1.config = s.config ∧
    (checkChannelActivity c s channel now).1.activityHandlers = s.activityHandlers := by
  unfold checkChannelActivity
  cases hf : c.fetchOlderHistory channel.streamId 0 now
      s.config.ACTIVITY_CHECK_MESSAGES channel.password with
  | ok M => simp only [hf]; split <;> simp
  | error e => simp [hf]

theorem countSubscribe_append (l1 l2 : List TEvent) (x : String) :
    countSubscribe (l1 ++ l2) x = countSubscribe l1 x + countSubscribe l2 x := by
  simp [countSubscribe, List.filter_append]

theorem countUnsubscribe_append (l1 l2 : List TEvent) (x : String) :
    countUnsubscribe (l1 ++ l2) x = countUnsubscribe l1 x + countUnsubscribe l2 x := by
  simp [countUnsubscribe, List.filter_append]

theorem countSubscribe_unsub (p x : String) :
    countSubscribe [TEvent.unsubscribe p] x = 0 := by
  simp [countSubscribe]

theorem countUnsubscribe_single (p x : String) :
    countUnsubscribe [TEvent.unsubscribe p] x = if p = x then 1 else 0 := by
  by_cases h : p = x <;> simp [countUnsubscribe, h]

/-- Behaviour of `setActiveChannel` on a channel that is not currently
active: the pointer is set, the trace is the downgrade of the previous
active channel (when any) followed by the subscribe request, and the call's
outcome is exactly the transport's subscribe outcome. -/
theorem setActiveChannel_not_active (c : Collab) (s : ManagerState) (x : String)
    (pw : Option String) (hnd : Option Nat) (n : Nat)
    (hx : x ≠ "") (hna : s.activeChannelId ≠ some x) :
    (setActiveChannel c s x pw hnd n).1.activeChannelId = some x ∧
    (setActiveChannel c s x pw hnd n).2.1 =
      (match s.activeChannelId with
       | some prev => (downgradeToBackground c s prev n).2
       | none => []) ++ [TEvent.subscribe x] ∧
    (setActiveChannel c s x pw hnd n).2.2 = c.subscribeToChannel x pw := by
  unfold setActiveChannel
  rw [if_neg hx, if_neg hna]
  cases ha : s.activeChannelId with
  | none => cases hs : c.subscribeToChannel x pw with
    | ok u => cases u; simp [hs]
    | error e => simp [hs]
  | some prev => cases hs : c.subscribeToChannel x pw with
    | ok u => cases u; simp [hs]
    | error e => simp [hs]

/-! ### Demo fixtures used by the witness theorems -/

def demoMsgs : List Msg := [⟨90⟩, ⟨110⟩, ⟨120⟩]

def demoChannel : Channel := { streamId := "ch1", messages := [], password := none }

def demoChB : Channel := { streamId := "ch2", messages := [⟨40⟩, ⟨60⟩], password := none }

def demoActive : Channel := { streamId := "act", messages := [⟨5⟩], password := none }

def demoBad : Channel := { streamId := "bad", messages := [], password := none }

def demoCollab : Collab :=
  { fetchOlderHistory := fun id _ _ _ _ =>
      if id = "bad" then Except.error "net"
      else if id = "ch1" then Except.ok demoMsgs
      else Except.ok [],
    subscribeToChannel := fun _ _ => Except.ok (),
    unsubscribe := fun _ => Except.ok (),
    getChannel := fun id =>
      if id = "ch1" then some demoChannel
      else if id = "ch2" then some demoChB
      else if id = "act" then some demoActive
      else if id = "bad" then some demoBad
      else none,
    getAllChannels := [demoActive, demoChannel, demoChB, demoBad],
    runHandler := fun h _ _ => if h = 1 then Except.error "boom" else Except.ok () }

def demoState : ManagerState :=
  { activeChannelId := some "act",
    activeSubscriptionHandlers := none,
    channelActivity := [("ch1", ⟨100, 0, 0⟩)],
    activityHandlers := [1, 2],
    config := defaultConfig,
    pollIndex := 0,
    isPolling := false }

/-! ### Claim theorems -/

/-- C1: the batch a background poll cycle selects is drawn from the
background set (all tracked channels minus the active channel), so it never
contains the channel the active-channel pointer designates. -/
theorem pollCycle_batch_excludes_active (c : Collab) (s : ManagerState) (ch : Channel)
    (hmem : ch ∈ selectBatch (backgroundChannelsOf c s) s.pollIndex
      (min s.config.POLL_BATCH_SIZE (backgroundChannelsOf c s).length)) :
    s.activeChannelId ≠ some ch.streamId := by
  unfold selectBatch at hmem
  obtain ⟨i, hi, hch⟩ := List.mem_map.mp hmem
  have hi' : i < min s.config.POLL_BATCH_SIZE (backgroundChannelsOf c s).length :=
    List.mem_range.mp hi
  have hlen : 0 < (backgroundChannelsOf c s).length :=
    lt_of_le_of_lt (Nat.zero_le i) (lt_of_lt_of_le hi' (Nat.min_le_right _ _))
  have hidx : (s.pollIndex + i) % (backgroundChannelsOf c s).length <
      (backgroundChannelsOf c s).length := Nat.mod_lt _ hlen
  have hmem' : ch ∈ backgroundChannelsOf c s := by
    rw [← hch, List.getD_eq_getElem?_getD, List.getElem?_eq_getElem hidx]
    exact List.getElem_mem hidx
  have hfil := (List.mem_filter.mp hmem').2
  exact of_decide_eq_true hfil

/-- C1 witness: in the demo state channel `ch1` is in the selected batch and
differs from the active channel `act`. -/
theorem pollCycle_batch_excludes_active_witness :
    demoChannel ∈ selectBatch (backgroundChannelsOf demoCollab demoState)
      demoState.pollIndex
      (min demoState.config.POLL_BATCH_SIZE
        (backgroundChannelsOf demoCollab demoState).length) ∧
    demoState.activeChannelId ≠ some demoChannel.streamId :=
  ⟨by decide, pollCycle_batch_excludes_active demoCollab demoState demoChannel (by decide)⟩

/-- C2: a successful activity check on a channel whose record holds
`lastMessageTime = t0, unreadCount = u0`, returning page `M`, leaves the
record with `unreadCount = u0 + |{m ∈ M : m.timestamp > t0}|`,
`lastMessageTime = max(t0, max of timestamps newer than t0)` and
`lastChecked = now`, and notifies every registered observer exactly once with
`(channelId, updatedRecord)` (regardless of observers throwing) precisely
when some message of `M` is newer than `t0`. -/
theorem checkChannelActivity_success_spec (c : Collab) (s : ManagerState)
    (channel : Channel) (now : Nat) (M : List Msg) (a0 : ChannelActivity)
    (hrec : lookupActivity s.channelActivity channel.streamId = some a0)
    (hfetch : c.fetchOlderHistory channel.streamId 0 now
      s.config.ACTIVITY_CHECK_MESSAGES channel.password = Except.ok M) :
    lookupActivity (checkChannelActivity c s channel now).1.channelActivity
        channel.streamId =
      some { lastMessageTime :=
               ((M.map Msg.timestamp).filter
                 (fun t => a0.lastMessageTime < t)).foldl max a0.lastMessageTime,
             unreadCount := a0.unreadCount +
               (M.filter (fun m => a0.lastMessageTime < m.timestamp)).length,
             lastChecked := now } ∧
    (checkChannelActivity c s channel now).2.1 =
      TEvent.fetch channel.streamId ::
        (if 0 < (M.filter (fun m => a0.lastMessageTime < m.timestamp)).length then
          s.activityHandlers.map (fun h => TEvent.notify h channel.streamId
            { lastMessageTime :=
                ((M.map Msg.timestamp).filter
                  (fun t => a0.lastMessageTime < t)).foldl max a0.lastMessageTime,
              unreadCount := a0.unreadCount +
                (M.filter (fun m => a0.lastMessageTime < m.timestamp)).length,
              lastChecked := now })
        else []) ∧
    (checkChannelActivity c s channel now).2.2 = Except.ok () := by
  unfold checkChannelActivity
  simp only [hrec, Option.getD_some, hfetch, scanNewMessages_eq]
  by_cases hc : 0 < (M.filter (fun m => a0.lastMessageTime < m.timestamp)).length
  · simp [hc, lookupActivity_setActivity_self, notifyActivityHandlers_eq]
  · simp [hc, lookupActivity_setActivity_self]

/-- C2 witness: the spec scenario — `lastMessageTime = 100`, fetched
timestamps `[90, 110, 120]`: unread grows by 2, `lastMessageTime` becomes 120,
and each registered observer is notified once (including the throwing one). -/
theorem checkChannelActivity_success_witness :
    lookupActivity (checkChannelActivity demoCollab demoState demoChannel 200).1.channelActivity
        "ch1" = some { lastMessageTime := 120, unreadCount := 2, lastChecked := 200 } ∧
    (checkChannelActivity demoCollab demoState demoChannel 200).2.1 =
      [TEvent.fetch "ch1",
       TEvent.notify 1 "ch1" { lastMessageTime := 120, unreadCount := 2, lastChecked := 200 },
       TEvent.notify 2 "ch1" { lastMessageTime := 120, unreadCount := 2, lastChecked := 200 }] ∧
    (checkChannelActivity demoCollab demoState demoChannel 200).2.2 = Except.ok () := by
  have h := checkChannelActivity_success_spec demoCollab demoState demoChannel 200
    demoMsgs ⟨100, 0, 0⟩ rfl rfl
  simpa using h

def demoStateIdle : ManagerState :=
  { activeChannelId := none,
    activeSubscriptionHandlers := none,
    channelActivity := [],
    activityHandlers := [],
    config := defaultConfig,
    pollIndex := 0,
    isPolling := false }

def demoCollabFail : Collab :=
  { demoCollab with subscribeToChannel := fun _ _ => Except.error "down" }

/-- The first activation of a not-yet-active channel issues exactly one
subscribe request for it. -/
theorem countSubscribe_first_activation (c : Collab) (s : ManagerState) (x : String)
    (pw : Option String) (hnd : Option Nat) (n : Nat)
    (hx : x ≠ "") (hna : s.activeChannelId ≠ some x) :
    countSubscribe (setActiveChannel c s x pw hnd n).2.1 x = 1 := by
  rw [(setActiveChannel_not_active c s x pw hnd n hx hna).2.1, countSubscribe_append]
  cases ha : s.activeChannelId with
  | none => simp [countSubscribe]
  | some prev =>
      by_cases hp : prev = "" <;>
        simp [downgradeToBackground_events, hp, countSubscribe]

/-- The first activation of a not-yet-active channel issues no unsubscribe
request for that channel. -/
theorem countUnsubscribe_first_activation (c : Collab) (s : ManagerState) (x : String)
    (pw : Option String) (hnd : Option Nat) (n : Nat)
    (hx : x ≠ "") (hna : s.activeChannelId ≠ some x) :
    countUnsubscribe (setActiveChannel c s x pw hnd n).2.1 x = 0 := by
  rw [(setActiveChannel_not_active c s x pw hnd n hx hna).2.1, countUnsubscribe_append]
  cases ha : s.activeChannelId with
  | none => simp [countUnsubscribe]
  | some prev =>
      have hpx : prev ≠ x := by
        intro hpe
        exact hna (by rw [ha, hpe])
      by_cases hp : prev = "" <;>
        simp [downgradeToBackground_events, hp, hpx, countUnsubscribe]

/-- C3: activating the already-active channel is a no-op — no downgrade, no
second subscribe request, state untouched — so activating the same channel
twice from a state where it was not active yields exactly one subscribe
request in the combined trace. -/
theorem setActiveChannel_idempotent (c : Collab) (s s2 : ManagerState) (x : String)
    (pw : Option String) (hnd : Option Nat) (n1 n2 : Nat)
    (hx : x ≠ "") (hactive : s.activeChannelId = some x)
    (hna : s2.activeChannelId ≠ some x) :
    setActiveChannel c s x pw hnd n1 = (s, [], Except.ok ()) ∧
    setActiveChannel c (setActiveChannel c s2 x pw hnd n1).1 x pw hnd n2 =
      ((setActiveChannel c s2 x pw hnd n1).1, [], Except.ok ()) ∧
    countSubscribe ((setActiveChannel c s2 x pw hnd n1).2.1 ++
      (setActiveChannel c (setActiveChannel c s2 x pw hnd n1).1 x pw hnd n2).2.1) x = 1 := by
  have hnoop : ∀ (st : ManagerState) (m : Nat), st.activeChannelId = some x →
      setActiveChannel c st x pw hnd m = (st, [], Except.ok ()) := by
    intro st m hst
    unfold setActiveChannel
    rw [if_neg hx, if_pos hst]
  have h1 := setActiveChannel_not_active c s2 x pw hnd n1 hx hna
  refine ⟨hnoop s n1 hactive, hnoop _ n2 h1.1, ?_⟩
  rw [hnoop _ n2 h1.1, countSubscribe_append,
    countSubscribe_first_activation c s2 x pw hnd n1 hx hna]
  simp [countSubscribe]

/-- C3 witness: re-activating the demo active channel is a no-op, and
activating `act` twice from the idle state subscribes exactly once. -/
theorem setActiveChannel_idempotent_witness :
    setActiveChannel demoCollab demoState "act" none none 1 =
      (demoState, [], Except.ok ()) ∧
    setActiveChannel demoCollab
        (setActiveChannel demoCollab demoStateIdle "act" none none 1).1 "act" none none 2 =
      ((setActiveChannel demoCollab demoStateIdle "act" none none 1).1, [], Except.ok ()) ∧
    countSubscribe ((setActiveChannel demoCollab demoStateIdle "act" none none 1).2.1 ++
      (setActiveChannel demoCollab
        (setActiveChannel demoCollab demoStateIdle "act" none none 1).1
        "act" none none 2).2.1) "act" = 1 :=
  setActiveChannel_idempotent demoCollab demoState demoStateIdle "act" none none 1 2
    (by decide) rfl (by decide)

/-- C4: activating `a` and then a distinct `b` makes the transport receive
exactly one unsubscribe of `a`, issued before the subscribe of `b`: the
second call's trace is precisely `[unsubscribe a, subscribe b]`. -/
theorem setActiveChannel_switch_order (c : Collab) (s : ManagerState) (a b : String)
    (pw1 pw2 : Option String) (hnd1 hnd2 : Option Nat) (n1 n2 : Nat)
    (ha : a ≠ "") (hb : b ≠ "") (hab : a ≠ b) (hna : s.activeChannelId ≠ some a) :
    (setActiveChannel c (setActiveChannel c s a pw1 hnd1 n1).1 b pw2 hnd2 n2).2.1 =
      [TEvent.unsubscribe a, TEvent.subscribe b] ∧
    countUnsubscribe ((setActiveChannel c s a pw1 hnd1 n1).2.1 ++
      (setActiveChannel c (setActiveChannel c s a pw1 hnd1 n1).1 b pw2 hnd2 n2).2.1) a = 1 := by
  have h1 := setActiveChannel_not_active c s a pw1 hnd1 n1 ha hna
  have hnb : (setActiveChannel c s a pw1 hnd1 n1).1.activeChannelId ≠ some b := by
    rw [h1.1]
    simp [hab]
  have h2 := setActiveChannel_not_active c (setActiveChannel c s a pw1 hnd1 n1).1
    b pw2 hnd2 n2 hb hnb
  have htr2 : (setActiveChannel c (setActiveChannel c s a pw1 hnd1 n1).1
      b pw2 hnd2 n2).2.1 = [TEvent.unsubscribe a, TEvent.subscribe b] := by
    rw [h2.2.1, h1.1]
    simp [downgradeToBackground_events, ha]
  refine ⟨htr2, ?_⟩
  rw [countUnsubscribe_append, htr2,
    countUnsubscribe_first_activation c s a pw1 hnd1 n1 ha hna]
  simp [countUnsubscribe]

/-- C4 witness: from the idle state, activating `ch1` then `ch2` gives the
trace `[unsubscribe ch1, subscribe ch2]` on the second call, with one
unsubscribe of `ch1` overall. -/
theorem setActiveChannel_switch_order_witness :
    (setActiveChannel demoCollab
      (setActiveChannel demoCollab demoStateIdle "ch1" none none 1).1
      "ch2" none none 2).2.1 =
      [TEvent.unsubscribe "ch1", TEvent.subscribe "ch2"] ∧
    countUnsubscribe ((setActiveChannel demoCollab demoStateIdle "ch1" none none 1).2.1 ++
      (setActiveChannel demoCollab
        (setActiveChannel demoCollab demoStateIdle "ch1" none none 1).1
        "ch2" none none 2).2.1) "ch1" = 1 :=
  setActiveChannel_switch_order demoCollab demoStateIdle "ch1" "ch2" none none none none 1 2
    (by decide) (by decide) (by decide) (by decide)

/-- C5: activating a non-active channel sets the active pointer to it before
the subscribe request — the pointer holds even when the subscribe fails — the
call's outcome is exactly the transport's subscribe outcome (the one error
the manager propagates to the host: every other entry point is a total
function with no error channel), and exactly one subscribe request is
issued. -/
theorem setActiveChannel_failure_spec (c : Collab) (s : ManagerState) (x : String)
    (pw : Option String) (hnd : Option Nat) (n : Nat)
    (hx : x ≠ "") (hna : s.activeChannelId ≠ some x) :
    (setActiveChannel c s x pw hnd n).1.activeChannelId = some x ∧
    (setActiveChannel c s x pw hnd n).2.2 = c.subscribeToChannel x pw ∧
    countSubscribe (setActiveChannel c s x pw hnd n).2.1 x = 1 :=
  ⟨(setActiveChannel_not_active c s x pw hnd n hx hna).1,
   (setActiveChannel_not_active c s x pw hnd n hx hna).2.2,
   countSubscribe_first_activation c s x pw hnd n hx hna⟩

/-- C5 witness: with a transport whose subscribe fails, activating `ch1`
still sets the pointer, propagates the failure, and issued one subscribe. -/
theorem setActiveChannel_failure_witness :
    (setActiveChannel demoCollabFail demoStateIdle "ch1" none none 1).1.activeChannelId =
      some "ch1" ∧
    (setActiveChannel demoCollabFail demoStateIdle "ch1" none none 1).2.2 =
      demoCollabFail.subscribeToChannel "ch1" none ∧
    countSubscribe (setActiveChannel demoCollabFail demoStateIdle "ch1" none none 1).2.1
      "ch1" = 1 :=
  setActiveChannel_failure_spec demoCollabFail demoStateIdle "ch1" none none 1
    (by decide) (by decide)

/-- C9: `forcePoll` on the active channel is a no-op (no fetch, no state
change), and `forcePoll` on any channel leaves the poll cursor and the
cycle in-progress guard untouched. -/
theorem forcePollChannel_spec (c : Collab) (s s2 : ManagerState) (streamId : String)
    (now : Nat) (hactive : s.activeChannelId = some streamId) :
    forcePollChannel c s streamId now = (s, []) ∧
    ∀ id', (forcePollChannel c s2 id' now).1.pollIndex = s2.pollIndex ∧
      (forcePollChannel c s2 id' now).1.isPolling = s2.isPolling := by
  constructor
  · unfold forcePollChannel
    cases c.getChannel streamId with
    | none => rfl
    | some channel => simp [hactive]
  · intro id'
    unfold forcePollChannel
    cases c.getChannel id' with
    | none => exact ⟨rfl, rfl⟩
    | some channel =>
        by_cases hid : s2.activeChannelId = some id'
        · simp [hid]
        · have hframe := checkChannelActivity_frame c s2 channel now
          simp only [hid, if_neg, if_false]
          exact ⟨hframe.1, hframe.2.1⟩

/-- C9 witness: force-polling the demo active channel returns the state
unchanged with no request issued, and a force poll of `ch1` leaves the cursor
and the guard as they were. -/
theorem forcePollChannel_witness :
    forcePollChannel demoCollab demoState "act" 500 = (demoState, []) ∧
    (forcePollChannel demoCollab demoState "ch1" 500).1.pollIndex = demoState.pollIndex ∧
    (forcePollChannel demoCollab demoState "ch1" 500).1.isPolling = demoState.isPolling :=
  ⟨(forcePollChannel_spec demoCollab demoState demoState "act" 500 rfl).1,
   (forcePollChannel_spec demoCollab demoState demoState "act" 500 rfl).2 "ch1"⟩

/-- C10: a failed history fetch leaves the channel's `unreadCount` and
`lastMessageTime` as they were (creating a zeroed record when none existed),
sets only `lastChecked` to the attempt time, and notifies no observer (the
trace is exactly the fetch attempt). -/
theorem checkChannelActivity_failure_spec (c : Collab) (s : ManagerState)
    (channel : Channel) (now : Nat) (e : String)
    (hfetch : c.fetchOlderHistory channel.streamId 0 now
      s.config.ACTIVITY_CHECK_MESSAGES channel.password = Except.error e) :
    lookupActivity (checkChannelActivity c s channel now).1.channelActivity
        channel.streamId =
      some { lastMessageTime :=
               ((lookupActivity s.channelActivity channel.streamId).getD
                 ⟨0, 0, 0⟩).lastMessageTime,
             unreadCount :=
               ((lookupActivity s.channelActivity channel.streamId).getD
                 ⟨0, 0, 0⟩).unreadCount,
             lastChecked := now } ∧
    (checkChannelActivity c s channel now).2.1 = [TEvent.fetch channel.streamId] ∧
    (checkChannelActivity c s channel now).2.2 = Except.error e := by
  unfold checkChannelActivity
  simp [hfetch, lookupActivity_setActivity_self]

/-- C10 witness: the failing `bad` channel has no record; the failed check
creates `⟨0, 0, attempt time⟩`, emits only the fetch attempt, and rethrows. -/
theorem checkChannelActivity_failure_witness :
    lookupActivity (checkChannelActivity demoCollab demoState demoBad 500).1.channelActivity
        "bad" = some { lastMessageTime := 0, unreadCount := 0, lastChecked := 500 } ∧
    (checkChannelActivity demoCollab demoState demoBad 500).2.1 = [TEvent.fetch "bad"] ∧
    (checkChannelActivity demoCollab demoState demoBad 500).2.2 = Except.error "net" := by
  have h := checkChannelActivity_failure_spec demoCollab demoState demoBad 500 "net" rfl
  simpa using h

def demoStateC6 : ManagerState :=
  { demoState with channelActivity := [("bad", ⟨50, 5, 10⟩)] }

/-- C6 counterexample: channel `bad` is tracked with `unreadCount = 5` but the
registry holds it with no in-memory messages; downgrading it performs no
snapshot at all, so `unreadCount` stays 5 instead of being reset to 0 (and
`lastChecked` stays 10 instead of the downgrade time 700). -/
theorem downgrade_reset_counterexample :
    (lookupActivity (downgradeToBackground demoCollab demoStateC6 "bad" 700).1.channelActivity
        "bad").map ChannelActivity.unreadCount = some 5 ∧
    ¬ (lookupActivity (downgradeToBackground demoCollab demoStateC6 "bad" 700).1.channelActivity
        "bad").map ChannelActivity.unreadCount = some 0 := by
  decide

/-- C6 (amended): downgrading issues exactly one unsubscribe request and
leaves the active pointer alone even when the unsubscribe fails (the failure
is swallowed and the channel is background thereafter); the snapshot —
latest in-memory message timestamp (the downgrade time when that timestamp is
0), `unreadCount = 0`, `lastChecked = now` — is written only when the
registry holds the channel with at least one in-memory message; otherwise
the state is left unchanged. -/
theorem downgradeToBackground_spec (c : Collab) (s : ManagerState) (streamId : String)
    (now : Nat) (hid : streamId ≠ "") :
    (downgradeToBackground c s streamId now).2 = [TEvent.unsubscribe streamId] ∧
    (downgradeToBackground c s streamId now).1.activeChannelId = s.activeChannelId ∧
    (∀ channel latestMsg, c.getChannel streamId = some channel →
      channel.messages.getLast? = some latestMsg →
      lookupActivity (downgradeToBackground c s streamId now).1.channelActivity streamId =
        some { lastMessageTime := if latestMsg.timestamp = 0 then now else latestMsg.timestamp,
               unreadCount := 0, lastChecked := now }) ∧
    (c.getChannel streamId = none → (downgradeToBackground c s streamId now).1 = s) ∧
    (∀ channel, c.getChannel streamId = some channel → channel.messages.getLast? = none →
      (downgradeToBackground c s streamId now).1 = s) := by
  refine ⟨?_, (downgradeToBackground_frame c s streamId now).1, ?_, ?_, ?_⟩
  · rw [downgradeToBackground_events, if_neg hid]
  · intro channel latestMsg hch hlast
    unfold downgradeToBackground
    rw [if_neg hid]
    cases hu : c.unsubscribe streamId <;>
      simp [hch, hlast, hu, lookupActivity_setActivity_self]
  · intro hch
    unfold downgradeToBackground
    rw [if_neg hid]
    cases hu : c.unsubscribe streamId <;> simp [hch, hu]
  · intro channel hch hlast
    unfold downgradeToBackground
    rw [if_neg hid]
    cases hu : c.unsubscribe streamId <;> simp [hch, hlast, hu]

/-- C6 witness: downgrading `ch2` (in-memory messages with latest timestamp
60) at time 900 snapshots `⟨60, 0, 900⟩`, issues one unsubscribe, and keeps
the active pointer. -/
theorem downgradeToBackground_spec_witness :
    (downgradeToBackground demoCollab demoState "ch2" 900).2 =
      [TEvent.unsubscribe "ch2"] ∧
    (downgradeToBackground demoCollab demoState "ch2" 900).1.activeChannelId =
      some "act" ∧
    lookupActivity (downgradeToBackground demoCollab demoState "ch2" 900).1.channelActivity
      "ch2" = some { lastMessageTime := 60, unreadCount := 0, lastChecked := 900 } := by
  have h := downgradeToBackground_spec demoCollab demoState "ch2" 900 (by decide)
  exact ⟨h.1, h.2.1, by simpa using h.2.2.1 demoChB ⟨60⟩ rfl rfl⟩

/-- Iterated cursor: the poll cursor after `k` further cycles over a fixed
background set, each advancing it as the code does. -/
def cursorIter (backgroundChannels : List Channel) (batchSize p : Nat) : Nat → Nat
  | 0 => p
  | k + 1 => cursorIter backgroundChannels batchSize
      (advanceCursor backgroundChannels p batchSize) k

theorem cursorIter_mod (L : List Channel) (bs p k : Nat) :
    cursorIter L bs p k % L.length = (p + k * bs) % L.length := by
  induction k generalizing p with
  | zero => simp [cursorIter]
  | succ k ih =>
      show cursorIter L bs (advanceCursor L p bs) k % L.length = _
      rw [ih, advanceCursor, Nat.mod_add_mod]
      congr 1
      ring

/-- C7: over a fixed background set of size `N` and configured batch size
`B > 0`, with batches of `min B N` channels taken at the cursor with
wrap-around and the cursor advanced by the batch size each cycle, every
position of the set is selected within `⌈N / B⌉` consecutive cycles. -/
theorem roundRobin_coverage (L : List Channel) (B p t : Nat)
    (hB : 0 < B) (hN : 0 < L.length) (ht : t < L.length) :
    ∃ k, k < (L.length + B - 1) / B ∧
      L.getD t emptyChannel ∈
        selectBatch L (cursorIter L (min B L.length) p k) (min B L.length) := by
  have hbs : 0 < min B L.length := lt_min hB hN
  have hpN : p % L.length < L.length := Nat.mod_lt _ hN
  have hj : (t + (L.length - p % L.length)) % L.length < L.length := Nat.mod_lt _ hN
  have hkey : (p + (t + (L.length - p % L.length)) % L.length) % L.length = t := by
    have e1 : (p + (t + (L.length - p % L.length)) % L.length) % L.length =
        (p % L.length + (t + (L.length - p % L.length))) % L.length :=
      Nat.ModEq.add ((Nat.mod_modEq p L.length).symm) (Nat.mod_modEq _ L.length)
    rw [e1]
    have e2 : p % L.length + (t + (L.length - p % L.length)) = t + L.length := by omega
    rw [e2, Nat.add_mod_right, Nat.mod_eq_of_lt ht]
  refine ⟨(t + (L.length - p % L.length)) % L.length / min B L.length, ?_, ?_⟩
  · rcases le_or_lt B L.length with hBN | hNB
    · rw [min_eq_left hBN]
      have h1 : (t + (L.length - p % L.length)) % L.length / B ≤ (L.length - 1) / B :=
        Nat.div_le_div_right (by omega)
      have h3 : (L.length + B - 1) / B = (L.length - 1) / B + 1 := by
        have e : L.length + B - 1 = (L.length - 1) + B := by omega
        rw [e, Nat.add_div_right _ hB]
      omega
    · rw [min_eq_right (le_of_lt hNB), Nat.div_eq_of_lt hj]
      exact Nat.div_pos (by omega) hB
  · have hi : (t + (L.length - p % L.length)) % L.length % min B L.length <
        min B L.length := Nat.mod_lt _ hbs
    unfold selectBatch
    refine List.mem_map.mpr ⟨_, List.mem_range.mpr hi, ?_⟩
    have hc : (cursorIter L (min B L.length) p
          ((t + (L.length - p % L.length)) % L.length / min B L.length) +
        (t + (L.length - p % L.length)) % L.length % min B L.length) % L.length = t := by
      rw [← Nat.mod_add_mod, cursorIter_mod, Nat.mod_add_mod, Nat.add_assoc]
      have hdm : (t + (L.length - p % L.length)) % L.length / min B L.length *
            min B L.length +
          (t + (L.length - p % L.length)) % L.length % min B L.length =
          (t + (L.length - p % L.length)) % L.length := by
        rw [Nat.mul_comm]
        exact Nat.div_add_mod _ _
      rw [hdm, hkey]
    rw [hc]

/-- C7 witness: with the four demo channels, batch size 3, cursor 0, the
channel at position 3 is selected within `⌈4 / 3⌉ = 2` cycles. -/
theorem roundRobin_coverage_witness :
    ∃ k, k < (demoCollab.getAllChannels.length + 3 - 1) / 3 ∧
      demoCollab.getAllChannels.getD 3 emptyChannel ∈
        selectBatch demoCollab.getAllChannels
          (cursorIter demoCollab.getAllChannels
            (min 3 demoCollab.getAllChannels.length) 0 k)
          (min 3 demoCollab.getAllChannels.length) :=
  roundRobin_coverage demoCollab.getAllChannels 3 0 3 (by decide) (by decide) (by decide)

/-- The state after a failing activity check: the channel's record (a zeroed
one when absent) with only `lastChecked` set to the attempt time. -/
def failTouched (s : ManagerState) (streamId : String) (now : Nat) : ManagerState :=
  let a0 := (lookupActivity s.channelActivity streamId).getD ⟨0, 0, 0⟩
  { s with channelActivity := setActivity s.channelActivity streamId { a0 with lastChecked := now } }

/-- The exact result of a failing activity check: only `lastChecked` is
touched, the trace is the fetch attempt, the error is rethrown. -/
theorem checkChannelActivity_error_eq (c : Collab) (s : ManagerState)
    (channel : Channel) (now : Nat) (e : String)
    (hfetch : c.fetchOlderHistory channel.streamId 0 now
      s.config.ACTIVITY_CHECK_MESSAGES channel.password = Except.error e) :
    checkChannelActivity c s channel now =
      (failTouched s channel.streamId now,
       [TEvent.fetch channel.streamId], Except.error e) := by
  unfold checkChannelActivity failTouched
  simp [hfetch]

/-- C8: when the first batch channel passes its cool-down and its fetch
fails, the cycle does not raise: it records only `lastChecked := now` for the
failing channel, keeps its fetch attempt in the trace, and processes the
remaining batch channels exactly as it would from that state; and a cycle
entered with the guard free ends with the in-progress guard released. -/
theorem pollCycle_failure_isolation (c : Collab) (s : ManagerState)
    (channel : Channel) (rest : List Channel) (now : Nat) (e : String)
    (hguard : s.isPolling = false)
    (hcool : ¬ now - ((lookupActivity s.channelActivity channel.streamId).map
        ChannelActivity.lastChecked).getD 0 < s.config.MIN_POLL_INTERVAL)
    (hfetch : c.fetchOlderHistory channel.streamId 0 now
      s.config.ACTIVITY_CHECK_MESSAGES channel.password = Except.error e) :
    pollBatch c s (channel :: rest) now =
      ((pollBatch c (failTouched s channel.streamId now) rest now).1,
        TEvent.fetch channel.streamId ::
          (pollBatch c (failTouched s channel.streamId now) rest now).2) ∧
    (pollBackgroundChannels c s now).1.isPolling = false := by
  constructor
  · show pollBatch c s (channel :: rest) now = _
    conv_lhs => rw [pollBatch]
    rw [if_neg hcool, checkChannelActivity_error_eq c s channel now e hfetch]
    rfl
  · simp only [pollBackgroundChannels, hguard, Bool.false_eq_true, if_false]
    split <;> rfl

/-- C8 witness: polling the batch `[bad, ch1]` at time 20000 — `bad`'s fetch
fails — still checks `ch1` and ends with the guard released. -/
theorem pollCycle_failure_isolation_witness :
    pollBatch demoCollab demoState (demoBad :: [demoChannel]) 20000 =
      ((pollBatch demoCollab (failTouched demoState "bad" 20000) [demoChannel] 20000).1,
        TEvent.fetch demoBad.streamId ::
          (pollBatch demoCollab (failTouched demoState "bad" 20000)
            [demoChannel] 20000).2) ∧
    (pollBackgroundChannels demoCollab demoState 20000).1.isPolling = false := by
  have h := pollCycle_failure_isolation demoCollab demoState demoBad [demoChannel]
    20000 "net" rfl (by decide) rfl
  simpa using h

end Moot
